import Mathlib

/-!
Shallow embedding of the telemetry-collection core of a status bar
(CPU block, Wifi block, network telemetry aggregator) and proofs about it.

Conventions of the embedding:
* Rust strings are modelled as `List Char` (`Str`), so every string
  operation is structurally recursive and computable by `decide`/`rfl`.
* Rust `u64` values are natural numbers; wherever the source performs
  unchecked `u64` arithmetic that can overflow or underflow, the model
  reduces modulo `2^64` (release-build wrapping semantics);
  `saturating_sub` on `u64` is truncated `Nat` subtraction.
* Rust `f32`/`f64` values produced by exact integer casts and the short
  arithmetic chains of this program are modelled as exact rationals `ℚ`.
* Filesystem reads and external command invocations are modelled as
  injected values: `Option Str` is `some content` when the read or the
  command succeeded (success exit status, valid UTF-8), `none` otherwise.
-/

/-- Rust string contents, as a list of characters. -/
abbrev Str := List Char

/-- Modulus of `u64` arithmetic. -/
def U64MOD : Nat := 2 ^ 64

/-- ASCII whitespace as recognised by the model (the inputs of interest
contain only ASCII; exotic Unicode whitespace is not modelled). -/
def isWS (c : Char) : Bool :=
  c = ' ' || c = '\t' || c = '\n' || c = '\r' || c = Char.ofNat 11 || c = Char.ofNat 12

/-- Split a list at every occurrence of a separator character, keeping
empty chunks (model of splitting on `':'`, Rust `str::split`). -/
def splitOnChar (sep : Char) : Str → List Str
  | [] => [[]]
  | c :: t =>
    match splitOnChar sep t with
    | [] => [[]]
    | g :: gs => if c = sep then [] :: g :: gs else (c :: g) :: gs

/-- Split into maximal whitespace-free chunks (Rust `str::split_whitespace`). -/
def splitWS (s : Str) : List Str :=
  ((s.splitOnP isWS).map id).filter (fun w => w ≠ [])

/-- `a` is a prefix of `b` (boolean). -/
def startsWithCL (pre s : Str) : Bool :=
  match pre, s with
  | [], _ => true
  | _ :: _, [] => false
  | a :: as_, b :: bs => a = b && startsWithCL as_ bs

/-- `needle` occurs somewhere in `hay` (Rust `str::contains`). -/
def containsCL (needle : Str) : Str → Bool
  | [] => startsWithCL needle []
  | c :: t => startsWithCL needle (c :: t) || containsCL needle t

/-- Strip leading and trailing model-whitespace (Rust `str::trim`). -/
def trimCL (s : Str) : Str :=
  ((s.dropWhile (fun c => isWS c)).reverse.dropWhile (fun c => isWS c)).reverse

/-- Remove every trailing `'.'` (Rust `str::trim_end_matches('.')`). -/
def trimTrailingDots (s : Str) : Str :=
  (s.reverse.dropWhile (fun c => c = '.')).reverse

/-- Strip one trailing carriage return. -/
def rstripCR (s : Str) : Str :=
  match s.reverse with
  | '\r' :: t => t.reverse
  | _ => s

/-- Helper for `rustLines`: every chunk but the last was terminated by a
newline, so it loses a trailing `'\r'`; a final empty chunk (trailing
newline in the input) is dropped. -/
def rustLinesAux : List Str → List Str
  | [] => []
  | [last] => if last = [] then [] else [last]
  | p :: q :: rest => rstripCR p :: rustLinesAux (q :: rest)

/-- Rust `str::lines` / `BufRead::lines`: split on `'\n'`, strip a `'\r'`
left at the end of a terminated line, no empty final line. -/
def rustLines (s : Str) : List Str :=
  rustLinesAux (splitOnChar '\n' s)

/-- Digit-string to value; `none` unless nonempty and all ASCII digits. -/
def parseDigits : Str → Option Nat
  | [] => none
  | s => go s 0
where
  go : Str → Nat → Option Nat
    | [], acc => some acc
    | c :: t, acc =>
      if '0' ≤ c ∧ c ≤ '9' then go t (acc * 10 + (c.toNat - '0'.toNat))
      else none

/-- Rust `str::parse::<u64>`: optional leading `'+'`, one or more ASCII
digits, value below `2^64` (overflow is a parse error). -/
def parseU64 (s : Str) : Option Nat :=
  match parseDigits (match s with | '+' :: r => r | r => r) with
  | none => none
  | some n => if n < U64MOD then some n else none

/-- Decimal-numeral fragment of Rust `str::parse::<f32>`: optional sign,
integer part and/or fractional part separated by one `'.'`, at least one
digit overall.  Exponent, `inf` and `nan` forms are not modelled; the
value is kept as an exact rational. -/
def parseDecimal (s : Str) : Option ℚ :=
  let (neg, t) : Bool × Str := match s with
    | '-' :: r => (true, r)
    | '+' :: r => (false, r)
    | r => (false, r)
  let out : Option ℚ :=
    match splitOnChar '.' t with
    | [ip] =>
      match parseDigits ip with
      | some n => some (n : ℚ)
      | none => none
    | [ip, fp] =>
      match ip, fp with
      | [], [] => none
      | [], _ =>
        match parseDigits fp with
        | some f => some ((f : ℚ) / (10 : ℚ) ^ fp.length)
        | none => none
      | _, [] =>
        match parseDigits ip with
        | some n => some (n : ℚ)
        | none => none
      | _, _ =>
        match parseDigits ip, parseDigits fp with
        | some n, some f => some ((n : ℚ) + (f : ℚ) / (10 : ℚ) ^ fp.length)
        | _, _ => none
    | _ => none
  match out with
  | none => none
  | some q => some (if neg then -q else q)

/-- Rust `f32::round` / float-to-int cast: round half away from zero. -/
def rustRound (q : ℚ) : Int :=
  if 0 ≤ q then round q else -(round (-q))

/-- Fuel-driven body of `replaceAll` (fuel bounds the scan length). -/
def replaceAllFuel (pat rep : Str) : Nat → Str → Str
  | 0, s => s
  | _ + 1, [] => []
  | fuel + 1, c :: t =>
    if pat ≠ [] ∧ startsWithCL pat (c :: t) then
      rep ++ replaceAllFuel pat rep fuel ((c :: t).drop pat.length)
    else
      c :: replaceAllFuel pat rep fuel t

/-- Rust `str::replace`: replace every non-overlapping occurrence of
`pat` by `rep`, scanning left to right. -/
def replaceAll (s pat rep : Str) : Str :=
  replaceAllFuel pat rep s.length s

/-- Decimal digits of a natural number (fuel-driven). -/
def natToStrAux : Nat → Nat → Str
  | 0, _ => []
  | _ + 1, 0 => []
  | f + 1, n => natToStrAux f (n / 10) ++ [Char.ofNat (48 + n % 10)]

/-- Rust `u64::to_string` / the digits of a natural number. -/
def natToStr (n : Nat) : Str :=
  if n = 0 then ['0'] else natToStrAux n n

/-- Rust `i32::to_string`. -/
def intToStr : Int → Str
  | .ofNat n => natToStr n
  | .negSucc m => '-' :: natToStr (m + 1)

/-! ## Error type (src/errors.rs, `BlockError`) -/

/-- The block-level error enum; payloads are kept as message strings. -/
inductive BlockError where
  | io : Str → BlockError
  | commandFailed : Str → BlockError
  | invalidData : Str → BlockError
deriving DecidableEq, Repr

/-! ## CPU collector (src/bar/blocks/cpu.rs) -/

/-- The `Cpu` block state: format template, interval (seconds), color,
and the delta baseline mutated by `get_cpu_usage`. -/
structure Cpu where
  format : Str
  interval_secs : Nat
  color : Nat
  prev_idle : Nat
  prev_total : Nat
deriving DecidableEq, Repr

/-- `Cpu::new`: fresh collector with baseline `(0, 0)`. -/
def Cpu.new (format : Str) (interval_secs : Nat) (color : Nat) : Cpu :=
  { format := format, interval_secs := interval_secs, color := color,
    prev_idle := 0, prev_total := 0 }

/-- The first line of the stat content starting with `"cpu "`. -/
def cpuStatLine (stat : Str) : Option Str :=
  (rustLines stat).find? (fun l => startsWithCL "cpu ".data l)

/-- The numeric fields of a cpu line: every whitespace-separated token
after the label that parses as `u64` (`filter_map(parse::<u64>().ok())`). -/
def cpuNumericFields (line : Str) : List Nat :=
  ((splitWS line).drop 1).filterMap parseU64

/-- `idle + iowait` of a parsed cpu line: `values[3]` plus
`values.get(4).unwrap_or(&0)`, the `u64` sum wrapping modulo `2^64`. -/
def cpuIdleTotal (values : List Nat) : Nat :=
  (values.getD 3 0 + values.getD 4 0) % U64MOD

/-- `values.iter().sum::<u64>()`: left fold with wrapping addition. -/
def cpuTotal (values : List Nat) : Nat :=
  values.foldl (fun a b => (a + b) % U64MOD) 0

/-- `Cpu::get_cpu_usage`.  The `stat` argument is the outcome of
`fs::read_to_string("/proc/stat")` (`none` = I/O failure).  Returns the
usage (or error) together with the post-call collector state: the source
mutates `self.prev_idle`/`self.prev_total` exactly once, after all error
exits and before the usage arithmetic.  `u64` sums wrap modulo `2^64`;
`saturating_sub` is `Nat` subtraction; the final `f32` expression is an
exact rational. -/
def Cpu.get_cpu_usage (c : Cpu) (stat : Option Str) : Except BlockError ℚ × Cpu :=
  match stat with
  | none => (.error (.io "read error".data), c)
  | some stat =>
    match cpuStatLine stat with
    | none => (.error (.io "CPU line not found in /proc/stat".data), c)
    | some cpu_line =>
      let values := cpuNumericFields cpu_line
      if values.length < 4 then
        (.error (.io "Invalid CPU values in /proc/stat".data), c)
      else
        let idle_total := cpuIdleTotal values
        let total := cpuTotal values
        let idle_delta := idle_total - c.prev_idle
        let total_delta := total - c.prev_total
        let usage : ℚ :=
          if 0 < total_delta then
            ((total_delta - idle_delta : Nat) : ℚ) / (total_delta : ℚ) * 100
          else 0
        (.ok usage, { c with prev_idle := idle_total, prev_total := total })

/-- `<Cpu as Block>::content`: renders the usage into the template.
`{}` and `{usage}` get the zero-decimal rendering, `{percent}` the
one-decimal rendering; both renderings are taken as opaque digit strings
produced by the injected `render0`/`render1` arguments since `f32`
formatting is not modelled digit-by-digit. -/
def Cpu.content (c : Cpu) (stat : Option Str) (render0 render1 : ℚ → Str) :
    Except BlockError Str × Cpu :=
  match c.get_cpu_usage stat with
  | (.error e, c') => (.error e, c')
  | (.ok usage, c') =>
    (.ok (replaceAll (replaceAll (replaceAll c.format
            "{}".data (render0 usage))
            "{percent}".data (render1 usage))
            "{usage}".data (render0 usage)), c')

/-! ## Wifi block (src/bar/blocks/wifi.rs) -/

/-- Outcomes of the OS probes the Wifi block performs.  A command field
is `some stdout` when the spawn succeeded, the exit status was success
and stdout was valid UTF-8; a file field is `some contents` when the
read succeeded. -/
structure WifiEnv where
  /-- `fs::read_dir("/sys/class/net")`: entry names paired with whether
  the entry's `wireless` subpath exists. -/
  sysClassNet : Option (List (Str × Bool))
  /-- stdout of `iw dev | grep Interface | awk .. | head -n1`. -/
  iwDevOutput : Option Str
  /-- contents of `/proc/net/wireless`. -/
  procNetWireless : Option Str
  /-- stdout of `iwgetid <iface> -r`. -/
  iwgetidOutput : Option Str
  /-- stdout of `iw dev <iface> link | grep SSID | awk ..`. -/
  iwLinkSsidOutput : Option Str
  /-- stdout of `nmcli -t -f active,ssid dev wifi | grep ^yes | cut -d: -f2`. -/
  nmcliOutput : Option Str

/-- The `Wifi` block state: format template, interval, color, optional
pinned interface name. -/
structure Wifi where
  format : Str
  interval_secs : Nat
  color : Nat
  interface : Option Str

/-- `Wifi::new`. -/
def Wifi.new (format : Str) (interval_secs : Nat) (color : Nat)
    (interface : Option Str) : Wifi :=
  { format := format, interval_secs := interval_secs, color := color,
    interface := interface }

/-- Method 3 of `detect_wifi_interface`: scan `/proc/net/wireless` lines
after the two headers for the first line that is non-blank, splits on
`':'` into at least two parts, and whose trimmed part before the colon
is non-empty. -/
def detectMethod3 : List Str → Option Str
  | [] => none
  | line :: rest =>
    if trimCL line ≠ [] then
      let parts := splitOnChar ':' line
      if 2 ≤ parts.length then
        let iface := trimCL (parts.headD [])
        if iface ≠ [] then some iface else detectMethod3 rest
      else detectMethod3 rest
    else detectMethod3 rest

/-- `detect_wifi_interface`: the three-way detection chain.  Method 1
returns the first `/sys/class/net` entry carrying a `wireless` marker;
method 2 the trimmed (non-empty) `iw dev` pipeline stdout; method 3 the
`/proc/net/wireless` scan. -/
def detect_wifi_interface (env : WifiEnv) : Option Str :=
  match (match env.sysClassNet with
         | some entries => (entries.find? (fun e => e.2)).map (fun e => e.1)
         | none => none) with
  | some name => some name
  | none =>
    match (match env.iwDevOutput with
           | some out => if trimCL out ≠ [] then some (trimCL out) else none
           | none => none) with
    | some iface => some iface
    | none =>
      match env.procNetWireless with
      | some content => detectMethod3 ((rustLines content).drop 2)
      | none => none

/-- `Wifi::get_interface`: pinned interface, else detection, else the
literal `"wlan0"`. -/
def Wifi.get_interface (w : Wifi) (env : WifiEnv) : Str :=
  match w.interface with
  | some iface => iface
  | none =>
    match detect_wifi_interface env with
    | some iface => iface
    | none => "wlan0".data

/-- `Wifi::get_ssid`: three-way chain over `iwgetid`, `iw dev .. link`,
`nmcli`; each succeeds when its stdout trims to a non-empty string;
exhaustion is the `CommandFailed("Not connected")` error. -/
def Wifi.get_ssid (_w : Wifi) (env : WifiEnv) : Except BlockError Str :=
  match (match env.iwgetidOutput with
         | some out => if trimCL out ≠ [] then some (trimCL out) else none
         | none => none) with
  | some ssid => .ok ssid
  | none =>
    match (match env.iwLinkSsidOutput with
           | some out => if trimCL out ≠ [] then some (trimCL out) else none
           | none => none) with
    | some ssid => .ok ssid
    | none =>
      match (match env.nmcliOutput with
             | some out => if trimCL out ≠ [] then some (trimCL out) else none
             | none => none) with
      | some ssid => .ok ssid
      | none => .error (.commandFailed "Not connected".data)

/-- Clamp `percentage.max(0).min(100)`. -/
def clampPct (n : Int) : Int := min (max n 0) 100

/-- Loop body of `Wifi::get_signal_quality` over the post-header lines:
the first line containing the interface name as a substring and having
at least 3 whitespace fields decides the outcome — parse failure of the
third field (trailing periods stripped) is an immediate error, success
yields the clamped rounded percentage. -/
def signalScan (iface : Str) : List Str → Except BlockError Int
  | [] => .error (.invalidData "Interface not found".data)
  | line :: rest =>
    if containsCL iface line then
      let parts := splitWS line
      if 3 ≤ parts.length then
        match parseDecimal (trimTrailingDots (parts.getD 2 [])) with
        | none => .error (.invalidData "Invalid quality value".data)
        | some q => .ok (clampPct (rustRound (q / 70 * 100)))
      else signalScan iface rest
    else signalScan iface rest

/-- `Wifi::get_signal_quality`: read `/proc/net/wireless`, skip the two
header lines, scan for the resolved interface. -/
def Wifi.get_signal_quality (w : Wifi) (env : WifiEnv) : Except BlockError Int :=
  match env.procNetWireless with
  | none => .error (.io "read error".data)
  | some content => signalScan (w.get_interface env) ((rustLines content).drop 2)

/-- `<Wifi as Block>::content`: on SSID success render with the quality
(defaulted to 0 on quality failure), on SSID failure render the
disconnected sentinels; both paths are `Ok`. -/
def Wifi.content (w : Wifi) (env : WifiEnv) : Except BlockError Str :=
  match w.get_ssid env with
  | .ok ssid =>
    let quality : Int :=
      match w.get_signal_quality env with
      | .ok q => q
      | .error _ => 0
    .ok (replaceAll (replaceAll (replaceAll w.format
          "{ssid}".data ssid)
          "{quality}".data (intToStr quality))
          "{}".data (ssid ++ " ".data ++ intToStr quality ++ "%".data))
  | .error _ =>
    .ok (replaceAll (replaceAll (replaceAll w.format
          "{ssid}".data "Disconnected".data)
          "{quality}".data "0".data)
          "{}".data "Disconnected".data)

/-! ## Network telemetry aggregator (src/bar/wifi.rs, `WifiInfo`) -/

/-- The extended snapshot.  Counter fields model `u64` (values below
`2^64`). -/
structure WifiInfo where
  interface : Str
  ssid : Str
  signal_strength : Int
  frequency : Str
  tx_bytes : Nat
  rx_bytes : Nat
  tx_packets : Nat
  rx_packets : Nat

/-- `WifiInfo::get_wireless_interface` over the outcome of opening
`/proc/net/wireless` (`none` = the path does not exist / open failed).
The source loop returns on its very first iteration because
`line.split(':').next()` is always `Some`. -/
def WifiInfo.get_wireless_interface (file : Option Str) : Except Str Str :=
  match file with
  | none => .error "No wireless interface found".data
  | some content =>
    match (rustLines content).drop 2 with
    | [] => .error "No active wireless interface".data
    | line :: _ => .ok (trimCL ((splitOnChar ':' line).headD []))

/-- Wrapping `u64` subtraction (release-build semantics of `a - b`);
for `a`, `b` below `2^64` this is `(a + 2^64 - b) % 2^64`. -/
def u64WrapSub (a b : Nat) : Nat := (a + U64MOD - b % U64MOD) % U64MOD

/-- `WifiInfo::calculate_rate`: unchecked `u64` differences of the byte
counters, cast to `f64` (modelled exactly). -/
def WifiInfo.calculate_rate (cur prev : WifiInfo) : ℚ × ℚ :=
  ((u64WrapSub cur.tx_bytes prev.tx_bytes : Nat),
   (u64WrapSub cur.rx_bytes prev.rx_bytes : Nat))

/-- `WifiInfo::signal_to_bars`: five dBm tiers. -/
def WifiInfo.signal_to_bars (signal : Int) : Str :=
  if -50 ≤ signal then "▂▄▆█".data
  else if -60 ≤ signal then "▂▄▆_".data
  else if -70 ≤ signal then "▂▄__".data
  else if -80 ≤ signal then "▂___".data
  else "____".data


/-! ## Characterization lemmas for the CPU collector -/

/-- Success form of `get_cpu_usage`: with a found cpu line carrying at
least four numeric fields, the call returns the delta-quotient usage and
stores the new baseline. -/
theorem get_cpu_usage_ok (c : Cpu) (s line : Str)
    (hline : cpuStatLine s = some line)
    (hlen : 4 ≤ (cpuNumericFields line).length) :
    c.get_cpu_usage (some s) =
      (.ok (if 0 < cpuTotal (cpuNumericFields line) - c.prev_total then
              ((cpuTotal (cpuNumericFields line) - c.prev_total
                  - (cpuIdleTotal (cpuNumericFields line) - c.prev_idle) : Nat) : ℚ)
                / ((cpuTotal (cpuNumericFields line) - c.prev_total : Nat) : ℚ) * 100
            else 0),
       { c with prev_idle := cpuIdleTotal (cpuNumericFields line),
                prev_total := cpuTotal (cpuNumericFields line) }) := by
  unfold Cpu.get_cpu_usage
  simp only [hline]
  rw [if_neg (by omega)]

/-- Error form of `get_cpu_usage`: the call fails exactly when the read
failed, the cpu line is missing, or it has fewer than four numeric
fields. -/
theorem get_cpu_usage_error_iff (c : Cpu) (stat : Option Str) :
    ((c.get_cpu_usage stat).1.isOk = false) ↔
      (stat = none
        ∨ ∃ s, stat = some s ∧ cpuStatLine s = none
        ∨ ∃ s line, stat = some s ∧ cpuStatLine s = some line
            ∧ (cpuNumericFields line).length < 4) := by
  cases stat with
  | none => simp [Cpu.get_cpu_usage, Except.isOk, Except.toBool]
  | some s =>
    cases hline : cpuStatLine s with
    | none => simp [Cpu.get_cpu_usage, hline, Except.isOk, Except.toBool]
    | some line =>
      by_cases hlen : (cpuNumericFields line).length < 4
      · simp [Cpu.get_cpu_usage, hline, hlen, Except.isOk, Except.toBool]
      · simp [Cpu.get_cpu_usage, hline, hlen, Except.isOk, Except.toBool]


/-- C10: whenever `get_cpu_usage` (hence `Cpu::content`) returns an
error, the baseline `prev_idle`/`prev_total` is left unchanged: every
error exit happens before the baseline is overwritten. -/
theorem cpu_error_keeps_baseline (c : Cpu) (stat : Option Str) :
    (∀ e, (c.get_cpu_usage stat).1 = .error e → (c.get_cpu_usage stat).2 = c) ∧
    (∀ render0 render1 e, (c.content stat render0 render1).1 = .error e →
      (c.content stat render0 render1).2 = c) := by
  have key : ∀ e, (c.get_cpu_usage stat).1 = .error e → (c.get_cpu_usage stat).2 = c := by
    intro e h
    cases stat with
    | none => rfl
    | some s =>
      cases hline : cpuStatLine s with
      | none => simp [Cpu.get_cpu_usage, hline]
      | some line =>
        by_cases hlen : (cpuNumericFields line).length < 4
        · simp [Cpu.get_cpu_usage, hline, hlen]
        · rw [get_cpu_usage_ok c s line hline (by omega)] at h
          exact absurd h (by simp)
  refine ⟨key, ?_⟩
  intro r0 r1 e h
  unfold Cpu.content at h ⊢
  rcases hg : c.get_cpu_usage stat with ⟨f, snd⟩
  cases f with
  | error e' =>
    have h2 : snd = c := by
      have h3 := key e' (by rw [hg])
      rwa [hg] at h3
    simpa using h2
  | ok u =>
    rw [hg] at h
    simp at h

/-- Witness for C10: a stat content with no cpu line errors out and the
freshly constructed baseline survives. -/
theorem cpu_error_keeps_baseline_witness :
    ((Cpu.new [] 1 0).get_cpu_usage (some "junk".data)).2 = Cpu.new [] 1 0 :=
  (cpu_error_keeps_baseline (Cpu.new [] 1 0) (some "junk".data)).1
    (.io "CPU line not found in /proc/stat".data) rfl

/-- C9: `signal_to_bars` maps dBm values to the five glyphs by the
inclusive thresholds -50, -60, -70 and -80, a boundary value always
selecting the fuller tier. -/
theorem signal_to_bars_tiers (s : Int) :
    (-50 ≤ s → WifiInfo.signal_to_bars s = "▂▄▆█".data) ∧
    (-60 ≤ s ∧ s < -50 → WifiInfo.signal_to_bars s = "▂▄▆_".data) ∧
    (-70 ≤ s ∧ s < -60 → WifiInfo.signal_to_bars s = "▂▄__".data) ∧
    (-80 ≤ s ∧ s < -70 → WifiInfo.signal_to_bars s = "▂___".data) ∧
    (s < -80 → WifiInfo.signal_to_bars s = "____".data) := by
  unfold WifiInfo.signal_to_bars
  refine ⟨fun h => ?_, fun h => ?_, fun h => ?_, fun h => ?_, fun h => ?_⟩
  · rw [if_pos h]
  · rw [if_neg (by omega), if_pos (by omega)]
  · rw [if_neg (by omega), if_neg (by omega), if_pos (by omega)]
  · rw [if_neg (by omega), if_neg (by omega), if_neg (by omega), if_pos (by omega)]
  · rw [if_neg (by omega), if_neg (by omega), if_neg (by omega), if_neg (by omega)]

/-- Witness for C9: the spec's sample points -45 (full), -65 (two bars)
and -85 (empty), each discharged at the corresponding tier. -/
theorem signal_to_bars_tiers_witness :
    WifiInfo.signal_to_bars (-45) = "▂▄▆█".data ∧
    WifiInfo.signal_to_bars (-65) = "▂▄__".data ∧
    WifiInfo.signal_to_bars (-85) = "____".data :=
  ⟨(signal_to_bars_tiers (-45)).1 (by decide),
   (signal_to_bars_tiers (-65)).2.2.1 ⟨by decide, by decide⟩,
   (signal_to_bars_tiers (-85)).2.2.2.2 (by decide)⟩

/-- C1: every successfully computed usage lies in `[0,100]` (the active
delta is a saturating subtraction, so the quotient never exceeds 1, and
a counter decrease cannot drive it negative), and the call immediately
following a successful one on the identical stat content yields `0`. -/
theorem cpu_usage_in_unit_range (c : Cpu) (s : Str) (u : ℚ) (c1 : Cpu)
    (h : c.get_cpu_usage (some s) = (.ok u, c1)) :
    (0 ≤ u ∧ u ≤ 100) ∧
    (∀ u2 c2, c1.get_cpu_usage (some s) = (.ok u2, c2) → u2 = 0) := by
  rcases hline : cpuStatLine s with _ | line
  · rw [Cpu.get_cpu_usage] at h
    simp [hline] at h
  · by_cases hlen : (cpuNumericFields line).length < 4
    · rw [Cpu.get_cpu_usage] at h
      simp [hline, hlen] at h
    · rw [get_cpu_usage_ok c s line hline (by omega)] at h
      simp only [Prod.mk.injEq, Except.ok.injEq] at h
      obtain ⟨hu, hc1⟩ := h
      subst hc1
      constructor
      · subst hu
        split
        · rename_i hpos
          constructor
          · positivity
          · rw [div_mul_eq_mul_div, div_le_iff₀ (by exact_mod_cast hpos)]
            have hle : (cpuTotal (cpuNumericFields line) - c.prev_total
                - (cpuIdleTotal (cpuNumericFields line) - c.prev_idle))
                ≤ cpuTotal (cpuNumericFields line) - c.prev_total := Nat.sub_le _ _
            calc ((cpuTotal (cpuNumericFields line) - c.prev_total
                    - (cpuIdleTotal (cpuNumericFields line) - c.prev_idle) : Nat) : ℚ) * 100
                ≤ ((cpuTotal (cpuNumericFields line) - c.prev_total : Nat) : ℚ) * 100 := by
                  have := (Nat.cast_le (α := ℚ)).2 hle
                  nlinarith
              _ = 100 * ((cpuTotal (cpuNumericFields line) - c.prev_total : Nat) : ℚ) := by ring
        · exact ⟨le_refl 0, by norm_num⟩
      · intro u2 c2 h2
        rw [get_cpu_usage_ok _ s line hline (by omega)] at h2
        simp only [Prod.mk.injEq, Except.ok.injEq] at h2
        rw [← h2.1]
        rw [if_neg (by simp)]

/-- Witness for C1: the fresh collector on `"cpu 1 2 3 4"` yields 60%,
inside the range, and the immediate repeat on the same content yields 0. -/
theorem cpu_usage_in_unit_range_witness :
    (0 ≤ ((6 : Nat) : ℚ) / ((10 : Nat) : ℚ) * 100 ∧ ((6 : Nat) : ℚ) / ((10 : Nat) : ℚ) * 100 ≤ 100) ∧
    (∀ u2 c2, (Cpu.mk [] 1 0 4 10).get_cpu_usage (some "cpu 1 2 3 4".data) = (.ok u2, c2) → u2 = 0) := by
  have hline : cpuStatLine "cpu 1 2 3 4".data = some "cpu 1 2 3 4".data := by decide
  have hf : cpuNumericFields "cpu 1 2 3 4".data = [1, 2, 3, 4] := by decide
  have h : (Cpu.new [] 1 0).get_cpu_usage (some "cpu 1 2 3 4".data) =
      (.ok (((6 : Nat) : ℚ) / ((10 : Nat) : ℚ) * 100), Cpu.mk [] 1 0 4 10) := by
    rw [get_cpu_usage_ok (Cpu.new [] 1 0) _ _ hline (by rw [hf]; decide)]
    rw [hf]
    norm_num [Cpu.new, cpuTotal, cpuIdleTotal, U64MOD]
  exact cpu_usage_in_unit_range (Cpu.new [] 1 0) "cpu 1 2 3 4".data _ _ h

/-- A parsed `u64` value is below `2^64`. -/
theorem parseU64_lt (s : Str) (n : Nat) (h : parseU64 s = some n) : n < U64MOD := by
  unfold parseU64 at h
  split at h
  · exact absurd h (by simp)
  · split at h
    · rename_i hlt
      injection h with h'
      exact h' ▸ hlt
    · exact absurd h (by simp)

/-- Every numeric field of a cpu line is below `2^64`. -/
theorem cpuNumericFields_lt (line : Str) :
    ∀ x ∈ cpuNumericFields line, x < U64MOD := by
  intro x hx
  obtain ⟨t, _, hp⟩ := List.mem_filterMap.1 hx
  exact parseU64_lt t x hp

/-- Counterexample to C2: on the freshly constructed collector, the cpu
line `"cpu 100 0 0 50"` (user 100, idle 50) makes the very first call
return 100/150·100 ≈ 66.7, not `0.0`: the zero baseline turns the first
sample into the since-boot utilization. -/
theorem cpu_first_call_counterexample :
    ((Cpu.new [] 1 0).get_cpu_usage (some "cpu 100 0 0 50".data)).1 =
      .ok (((100 : Nat) : ℚ) / ((150 : Nat) : ℚ) * 100) ∧
    (((100 : Nat) : ℚ) / ((150 : Nat) : ℚ) * 100) ≠ 0 := by
  have hline : cpuStatLine "cpu 100 0 0 50".data = some "cpu 100 0 0 50".data := by decide
  have hf : cpuNumericFields "cpu 100 0 0 50".data = [100, 0, 0, 50] := by decide
  constructor
  · rw [get_cpu_usage_ok (Cpu.new [] 1 0) _ _ hline (by rw [hf]; decide), hf]
    norm_num [Cpu.new, cpuTotal, cpuIdleTotal, U64MOD]
  · norm_num

/-- C2 (amended): the first call on a freshly constructed collector does
not in general return `0.0`; because the baseline is `(0,0)`, it returns
the since-boot utilization `(total − idle_total)/total · 100` of the
supplied cpu line (and `0.0` exactly when that wrapped total is zero). -/
theorem cpu_first_call_amended (f : Str) (iv co : Nat) (s line : Str)
    (hline : cpuStatLine s = some line)
    (hlen : 4 ≤ (cpuNumericFields line).length) :
    ((Cpu.new f iv co).get_cpu_usage (some s)).1 =
      .ok (if 0 < cpuTotal (cpuNumericFields line) then
            ((cpuTotal (cpuNumericFields line)
                - cpuIdleTotal (cpuNumericFields line) : Nat) : ℚ)
              / ((cpuTotal (cpuNumericFields line) : Nat) : ℚ) * 100
          else 0) := by
  rw [get_cpu_usage_ok (Cpu.new f iv co) s line hline hlen]
  simp [Cpu.new]

/-- Witness for the amended C2 at the counterexample input. -/
theorem cpu_first_call_amended_witness :
    ((Cpu.new [] 1 0).get_cpu_usage (some "cpu 100 0 0 50".data)).1 =
      .ok (if 0 < cpuTotal (cpuNumericFields "cpu 100 0 0 50".data) then
            ((cpuTotal (cpuNumericFields "cpu 100 0 0 50".data)
                - cpuIdleTotal (cpuNumericFields "cpu 100 0 0 50".data) : Nat) : ℚ)
              / ((cpuTotal (cpuNumericFields "cpu 100 0 0 50".data) : Nat) : ℚ) * 100
          else 0) :=
  cpu_first_call_amended [] 1 0 _ _ (by decide) (by decide)

/-- C6: given readable stat content, `get_cpu_usage` errors exactly when
the `"cpu "` line is absent or has fewer than 4 numeric fields; with
exactly 4 it succeeds and the stored idle baseline is the 4th field
(iowait treated as 0); with 5 or more the 5th field is added as iowait. -/
theorem cpu_parse_contract (c : Cpu) (s : Str) :
    (((c.get_cpu_usage (some s)).1.isOk = false) ↔
      (cpuStatLine s = none ∨
        ∃ line, cpuStatLine s = some line ∧ (cpuNumericFields line).length < 4)) ∧
    (∀ line, cpuStatLine s = some line → (cpuNumericFields line).length = 4 →
      ((c.get_cpu_usage (some s)).1.isOk = true ∧
       (c.get_cpu_usage (some s)).2.prev_idle = (cpuNumericFields line).getD 3 0)) ∧
    (∀ line, cpuStatLine s = some line → 5 ≤ (cpuNumericFields line).length →
      ((c.get_cpu_usage (some s)).1.isOk = true ∧
       (c.get_cpu_usage (some s)).2.prev_idle =
         ((cpuNumericFields line).getD 3 0 + (cpuNumericFields line).getD 4 0) % U64MOD)) := by
  refine ⟨?_, ?_, ?_⟩
  · rw [get_cpu_usage_error_iff c (some s)]
    constructor
    · rintro (h | ⟨s', hs⟩)
      · exact absurd h (by simp)
      · rcases hs with ⟨hs', hnone⟩ | ⟨s'', line, hs'', hline, hlen⟩
        · cases hs'
          exact .inl hnone
        · cases hs''
          exact .inr ⟨line, hline, hlen⟩
    · rintro (h | ⟨line, hline, hlen⟩)
      · exact .inr ⟨s, .inl ⟨rfl, h⟩⟩
      · exact .inr ⟨s, .inr ⟨s, line, rfl, hline, hlen⟩⟩
  · intro line hline hlen4
    rw [get_cpu_usage_ok c s line hline (by omega)]
    refine ⟨rfl, ?_⟩
    show cpuIdleTotal (cpuNumericFields line) = (cpuNumericFields line).getD 3 0
    unfold cpuIdleTotal
    have h40 : (cpuNumericFields line).getD 4 0 = 0 :=
      List.getD_eq_default _ _ (by omega)
    have hmem : (cpuNumericFields line).getD 3 0 ∈ cpuNumericFields line := by
      rw [List.getD_eq_getElem _ _ (by omega)]
      exact List.getElem_mem _
    rw [h40, Nat.add_zero]
    exact Nat.mod_eq_of_lt (cpuNumericFields_lt line _ hmem)
  · intro line hline hlen5
    rw [get_cpu_usage_ok c s line hline (by omega)]
    exact ⟨rfl, rfl⟩

/-- Witness for C6: `"cpu 1 2 3 4"` has exactly four numeric fields, the
call succeeds, and the stored idle baseline is the 4th field. -/
theorem cpu_parse_contract_witness :
    ((Cpu.new [] 1 0).get_cpu_usage (some "cpu 1 2 3 4".data)).1.isOk = true ∧
    ((Cpu.new [] 1 0).get_cpu_usage (some "cpu 1 2 3 4".data)).2.prev_idle =
      (cpuNumericFields "cpu 1 2 3 4".data).getD 3 0 :=
  (cpu_parse_contract (Cpu.new [] 1 0) "cpu 1 2 3 4".data).2.1 _ (by decide) (by decide)

/-- C3: the Wifi block's `content` is total — it returns `Ok` for every
probe outcome; SSID failure renders the disconnected sentinels
(`{ssid}` → "Disconnected", `{quality}` → "0", `{}` → "Disconnected");
SSID success with signal-quality failure renders quality 0. -/
theorem wifi_content_never_errors (w : Wifi) (env : WifiEnv) :
    (∃ out, w.content env = .ok out) ∧
    (∀ e, w.get_ssid env = .error e →
      w.content env = .ok (replaceAll (replaceAll (replaceAll w.format
        "{ssid}".data "Disconnected".data)
        "{quality}".data "0".data)
        "{}".data "Disconnected".data)) ∧
    (∀ ssid e, w.get_ssid env = .ok ssid → w.get_signal_quality env = .error e →
      w.content env = .ok (replaceAll (replaceAll (replaceAll w.format
        "{ssid}".data ssid)
        "{quality}".data "0".data)
        "{}".data (ssid ++ " ".data ++ "0".data ++ "%".data))) := by
  refine ⟨?_, ?_, ?_⟩
  · unfold Wifi.content
    cases hs : w.get_ssid env with
    | ok ssid => exact ⟨_, rfl⟩
    | error e => exact ⟨_, rfl⟩
  · intro e hs
    unfold Wifi.content
    rw [hs]
  · intro ssid e hs hq
    unfold Wifi.content
    rw [hs, hq]
    rfl

/-- Witness for C3: with every probe failing, the sentinel render. -/
theorem wifi_content_never_errors_witness :
    (Wifi.new "wifi: {ssid} {quality}".data 1 0 none).content
        ⟨none, none, none, none, none, none⟩ =
      .ok "wifi: Disconnected 0".data := by
  rw [(wifi_content_never_errors (Wifi.new "wifi: {ssid} {quality}".data 1 0 none)
        ⟨none, none, none, none, none, none⟩).2.1
      (.commandFailed "Not connected".data) rfl]
  exact congrArg Except.ok (by decide)

/-- If no post-header line of the wireless statistics file yields a
name, method 3 of the detection chain finds nothing. -/
theorem detectMethod3_eq_none (lines : List Str)
    (h : ∀ line ∈ lines, trimCL line = [] ∨ (splitOnChar ':' line).length < 2 ∨
         trimCL ((splitOnChar ':' line).headD []) = []) :
    detectMethod3 lines = none := by
  induction lines with
  | nil => rfl
  | cons l rest ih =>
    have hl := h l (by simp)
    have hrest := ih (fun x hx => h x (by simp [hx]))
    unfold detectMethod3
    by_cases ht : trimCL l = []
    · simp [ht, hrest]
    · by_cases h2 : 2 ≤ (splitOnChar ':' l).length
      · have hif : trimCL ((splitOnChar ':' l).headD []) = [] := by
          rcases hl with hl | hl | hl
          · exact absurd hl ht
          · omega
          · exact hl
        simp [ht, h2, hrest]
        simpa using hif
      · simp [ht, h2, hrest]

/-- C5: the interface resolver is total over every probe environment.
For every environment a pinned interface is returned unconditionally
(detection skipped); the resolver always yields some name (it is a
plain total function, never an error); when the sysfs wireless-marker
scan, the `iw dev` listing and the `/proc/net/wireless` parse all fail
to yield a name, detection comes up empty and, absent a pin, the
literal `"wlan0"` is returned. -/
theorem wifi_get_interface_total (w : Wifi) (env : WifiEnv) :
    (∀ name, w.interface = some name → w.get_interface env = name) ∧
    (∃ name, w.get_interface env = name) ∧
    ((∀ l, env.sysClassNet = some l → ∀ e ∈ l, e.2 = false) →
     (∀ out, env.iwDevOutput = some out → trimCL out = []) →
     (∀ c, env.procNetWireless = some c →
        ∀ line ∈ (rustLines c).drop 2,
          trimCL line = [] ∨ (splitOnChar ':' line).length < 2 ∨
          trimCL ((splitOnChar ':' line).headD []) = []) →
     detect_wifi_interface env = none) ∧
    (w.interface = none → detect_wifi_interface env = none →
     w.get_interface env = "wlan0".data) := by
  refine ⟨?_, ⟨_, rfl⟩, ?_, ?_⟩
  · intro name hp
    unfold Wifi.get_interface
    rw [hp]
  · intro h1 h2 h3
    unfold detect_wifi_interface
    have hm1 : (match env.sysClassNet with
        | some entries => (entries.find? (fun e => e.2)).map (fun e => e.1)
        | none => none) = (none : Option Str) := by
      cases hs : env.sysClassNet with
      | none => rfl
      | some l =>
        have : l.find? (fun e => e.2) = none :=
          List.find?_eq_none.2 (fun e he => by simp [h1 l hs e he])
        simp [this]
    rw [hm1]
    have hm2 : (match env.iwDevOutput with
        | some out => if trimCL out ≠ [] then some (trimCL out) else none
        | none => none) = (none : Option Str) := by
      cases hi : env.iwDevOutput with
      | none => rfl
      | some out => simp [h2 out hi]
    rw [hm2]
    cases hw : env.procNetWireless with
    | none => rfl
    | some c => exact detectMethod3_eq_none _ (h3 c hw)
  · intro hp hdet
    unfold Wifi.get_interface
    rw [hp, hdet]

/-- Witness for C5: a pinned interface wins even against a probe
environment in which sysfs detection would succeed (a wireless-marked
`wlan1` entry); and on an all-failing environment detection yields
nothing and the unpinned resolver falls back to `"wlan0"`. -/
theorem wifi_get_interface_total_witness :
    (Wifi.new [] 1 0 (some "wlp3s0".data)).get_interface
        ⟨some [("wlan1".data, true)], none, none, none, none, none⟩ = "wlp3s0".data ∧
    detect_wifi_interface ⟨none, none, none, none, none, none⟩ = none ∧
    (Wifi.new [] 1 0 none).get_interface
        ⟨none, none, none, none, none, none⟩ = "wlan0".data := by
  have hdet : detect_wifi_interface ⟨none, none, none, none, none, none⟩ = none :=
    (wifi_get_interface_total (Wifi.new [] 1 0 none)
        ⟨none, none, none, none, none, none⟩).2.2.1
      (fun _ h => Option.noConfusion h) (fun _ h => Option.noConfusion h)
      (fun _ h => Option.noConfusion h)
  exact ⟨(wifi_get_interface_total (Wifi.new [] 1 0 (some "wlp3s0".data))
      ⟨some [("wlan1".data, true)], none, none, none, none, none⟩).1
      "wlp3s0".data rfl,
    hdet,
    (wifi_get_interface_total (Wifi.new [] 1 0 none)
        ⟨none, none, none, none, none, none⟩).2.2.2 rfl hdet⟩

/-- `U64MOD` as a numeral, for `omega`. -/
theorem U64MOD_eq : U64MOD = 18446744073709551616 := by norm_num [U64MOD]

/-- Counterexample to C8: `get_wireless_interface` does not skip blank
lines — `line.split(':').next()` is always `Some`, so on a file whose
first post-header line is blank it returns `Ok("")`, an empty interface
name, even though a non-empty name (`wlan0`) exists on the next line. -/
theorem wireless_interface_counterexample :
    WifiInfo.get_wireless_interface (some "h1\nh2\n\nwlan0: 1 2 3".data) = .ok [] ∧
    ([] : Str) ≠ "wlan0".data :=
  ⟨rfl, by decide⟩

/-- C8 (amended): `get_wireless_interface` returns the trimmed text
before the first `':'` of the *first* line after the two header lines —
whatever it is, including the empty string — and fails exactly when the
file is absent or has no line after the headers. -/
theorem wireless_interface_amended (file : Option Str) :
    ((WifiInfo.get_wireless_interface file).isOk = false ↔
      (file = none ∨ ∃ c, file = some c ∧ (rustLines c).drop 2 = [])) ∧
    (∀ c line rest, file = some c → (rustLines c).drop 2 = line :: rest →
      WifiInfo.get_wireless_interface file =
        .ok (trimCL ((splitOnChar ':' line).headD []))) := by
  constructor
  · cases file with
    | none => simp [WifiInfo.get_wireless_interface, Except.isOk, Except.toBool]
    | some c =>
      cases hd : (rustLines c).drop 2 with
      | nil =>
        have hlen := congrArg List.length hd
        simp only [List.length_drop, List.length_nil] at hlen
        simp [WifiInfo.get_wireless_interface, hd, Except.isOk, Except.toBool]
        omega
      | cons line rest =>
        have hlen := congrArg List.length hd
        simp only [List.length_drop, List.length_cons] at hlen
        simp [WifiInfo.get_wireless_interface, hd, Except.isOk, Except.toBool]
        omega
  · intro c line rest hf hd
    subst hf
    simp only [WifiInfo.get_wireless_interface, hd]

/-- Witness for the amended C8: a well-formed three-line file yields the
trimmed before-colon text of its third line. -/
theorem wireless_interface_amended_witness :
    WifiInfo.get_wireless_interface (some "h1\nh2\nwlan0: 0 70. 70.".data) =
      .ok (trimCL ((splitOnChar ':' "wlan0: 0 70. 70.".data).headD [])) :=
  (wireless_interface_amended (some "h1\nh2\nwlan0: 0 70. 70.".data)).2
    _ _ [] rfl (by decide)

/-- Counterexample to C4: `calculate_rate` does not use saturating
subtraction — with a byte counter that decreased by 1 between the
snapshots the `u64` difference wraps to `2^64 − 1` instead of
saturating to `0`. -/
theorem calculate_rate_counterexample :
    (WifiInfo.calculate_rate
        ⟨[], [], 0, [], 0, 0, 0, 0⟩ ⟨[], [], 0, [], 1, 0, 0, 0⟩).1 =
      ((2 ^ 64 - 1 : Nat) : ℚ) ∧
    ((2 ^ 64 - 1 : Nat) : ℚ) ≠ 0 := by
  constructor
  · show ((u64WrapSub 0 1 : Nat) : ℚ) = ((2 ^ 64 - 1 : Nat) : ℚ)
    exact Nat.cast_inj.mpr (by decide)
  · rw [Ne, Nat.cast_eq_zero]
    decide

/-- C4 (amended): the CPU collector's deltas do use saturating
subtraction — a counter decrease makes the deltas saturate to 0 and the
call report usage 0 — but `calculate_rate` uses plain `u64` subtraction:
it returns the true difference when the counter did not decrease, and on
a decrease it wraps modulo `2^64` to a huge non-zero value (a debug
build would panic) instead of saturating. -/
theorem delta_subtraction_amended (c : Cpu) (s line : Str) (cur prev : WifiInfo)
    (hline : cpuStatLine s = some line)
    (hlen : 4 ≤ (cpuNumericFields line).length)
    (hdec : cpuTotal (cpuNumericFields line) ≤ c.prev_total)
    (hcur : cur.tx_bytes < U64MOD) (hprev : prev.tx_bytes < U64MOD) :
    ((c.get_cpu_usage (some s)).1 = .ok 0) ∧
    (prev.tx_bytes ≤ cur.tx_bytes →
      (cur.calculate_rate prev).1 = ((cur.tx_bytes - prev.tx_bytes : Nat) : ℚ)) ∧
    (cur.tx_bytes < prev.tx_bytes →
      ((cur.calculate_rate prev).1 =
        ((cur.tx_bytes + U64MOD - prev.tx_bytes : Nat) : ℚ) ∧
       (cur.calculate_rate prev).1 ≠ 0)) := by
  refine ⟨?_, ?_, ?_⟩
  · rw [get_cpu_usage_ok c s line hline hlen]
    show Except.ok _ = Except.ok 0
    rw [if_neg (by omega)]
  · intro hle
    show ((u64WrapSub cur.tx_bytes prev.tx_bytes : Nat) : ℚ) = _
    refine Nat.cast_inj.mpr ?_
    unfold u64WrapSub
    rw [U64MOD_eq] at *
    omega
  · intro hlt
    constructor
    · show ((u64WrapSub cur.tx_bytes prev.tx_bytes : Nat) : ℚ) = _
      refine Nat.cast_inj.mpr ?_
      unfold u64WrapSub
      rw [U64MOD_eq] at *
      omega
    · show ((u64WrapSub cur.tx_bytes prev.tx_bytes : Nat) : ℚ) ≠ 0
      rw [Ne, Nat.cast_eq_zero]
      unfold u64WrapSub
      rw [U64MOD_eq] at *
      omega

/-- Witness for the amended C4: a stale-baseline CPU collector reports
usage 0 on a decreased counter set, and a byte-counter decrease from 7
to 5 makes `calculate_rate` wrap to a non-zero value. -/
theorem delta_subtraction_amended_witness :
    ((Cpu.mk [] 1 0 1000 100000).get_cpu_usage (some "cpu 1 2 3 4".data)).1 = .ok 0 ∧
    ((WifiInfo.mk [] [] 0 [] 5 0 0 0).calculate_rate (WifiInfo.mk [] [] 0 [] 7 0 0 0)).1 ≠ 0 :=
  have h := delta_subtraction_amended (Cpu.mk [] 1 0 1000 100000) "cpu 1 2 3 4".data
    "cpu 1 2 3 4".data (WifiInfo.mk [] [] 0 [] 5 0 0 0) (WifiInfo.mk [] [] 0 [] 7 0 0 0)
    (by decide) (by decide) (by decide) (by decide) (by decide)
  ⟨h.1, (h.2.2 (by decide)).2⟩

/-- The signal scan decides at the first post-header line that contains
the interface name and has at least three whitespace fields. -/
theorem signalScan_first_match (iface : Str) (pre : List Str) (line : Str)
    (rest : List Str) (q : ℚ)
    (hpre : ∀ l ∈ pre, containsCL iface l = false ∨ (splitWS l).length < 3)
    (hmatch : containsCL iface line = true)
    (hfields : 3 ≤ (splitWS line).length)
    (hq : parseDecimal (trimTrailingDots ((splitWS line).getD 2 [])) = some q) :
    signalScan iface (pre ++ line :: rest) =
      .ok (clampPct (rustRound (q / 70 * 100))) := by
  induction pre with
  | nil =>
    unfold signalScan
    rw [List.nil_append]
    simp only [hmatch, if_true]
    rw [if_pos hfields]
    simp only [hq]
  | cons p ps ih =>
    have hp := hpre p (by simp)
    have ihh := ih (fun l hl => hpre l (by simp [hl]))
    rw [List.cons_append]
    unfold signalScan
    rcases hp with hp | hp
    · rw [if_neg (by simp [hp])]
      exact ihh
    · by_cases hcp : containsCL iface p = true
      · rw [if_pos hcp, if_neg (by omega)]
        exact ihh
      · rw [if_neg (by simp [hcp])]
        exact ihh

/-- C7: when the first matching post-header line of the wireless file
(containing the resolved interface, with at least three fields) has a
parsable third field of raw quality `q` (trailing periods stripped),
`get_signal_quality` returns `round(q / 70 * 100)` clamped to
`[0, 100]`, and the returned value indeed lies in `[0, 100]`. -/
theorem signal_quality_formula (w : Wifi) (env : WifiEnv) (content : Str)
    (pre : List Str) (line : Str) (rest : List Str) (q : ℚ)
    (hc : env.procNetWireless = some content)
    (hsplit : (rustLines content).drop 2 = pre ++ line :: rest)
    (hpre : ∀ l ∈ pre,
      containsCL (w.get_interface env) l = false ∨ (splitWS l).length < 3)
    (hmatch : containsCL (w.get_interface env) line = true)
    (hfields : 3 ≤ (splitWS line).length)
    (hq : parseDecimal (trimTrailingDots ((splitWS line).getD 2 [])) = some q) :
    w.get_signal_quality env = .ok (clampPct (rustRound (q / 70 * 100))) ∧
    0 ≤ clampPct (rustRound (q / 70 * 100)) ∧
    clampPct (rustRound (q / 70 * 100)) ≤ 100 := by
  refine ⟨?_, ?_, ?_⟩
  · unfold Wifi.get_signal_quality
    simp only [hc]
    rw [hsplit]
    exact signalScan_first_match _ pre line rest q hpre hmatch hfields hq
  · exact le_min (le_max_right _ _) (by norm_num)
  · exact min_le_right _ _

/-- Witness for C7: with pinned interface `wlan0` and a wireless file
whose matching line has raw quality `70.`, the block reports 100%; with
raw `35.` it reports 50%; raw `140.` (above the 70 maximum) clamps
to 100. -/
theorem signal_quality_formula_witness :
    (Wifi.new [] 1 0 (some "wlan0".data)).get_signal_quality
        ⟨none, none, some "h1\nh2\nwlan0: 0000 70. 40. 0".data, none, none, none⟩ =
      .ok 100 ∧
    (Wifi.new [] 1 0 (some "wlan0".data)).get_signal_quality
        ⟨none, none, some "h1\nh2\nwlan0: 0000 35. 40. 0".data, none, none, none⟩ =
      .ok 50 ∧
    (Wifi.new [] 1 0 (some "wlan0".data)).get_signal_quality
        ⟨none, none, some "h1\nh2\nwlan0: 0000 140. 40. 0".data, none, none, none⟩ =
      .ok 100 := by
  have hq70 : parseDecimal (trimTrailingDots
      ((splitWS "wlan0: 0000 70. 40. 0".data).getD 2 [])) = some 70 := by
    have h1 : trimTrailingDots ((splitWS "wlan0: 0000 70. 40. 0".data).getD 2 [])
        = "70".data := by decide
    have h2 : splitOnChar '.' "70".data = ["70".data] := by decide
    have h3 : parseDigits "70".data = some 70 := by decide
    rw [h1]
    norm_num +decide [parseDecimal, h2, h3]
  have hq35 : parseDecimal (trimTrailingDots
      ((splitWS "wlan0: 0000 35. 40. 0".data).getD 2 [])) = some 35 := by
    have h1 : trimTrailingDots ((splitWS "wlan0: 0000 35. 40. 0".data).getD 2 [])
        = "35".data := by decide
    have h2 : splitOnChar '.' "35".data = ["35".data] := by decide
    have h3 : parseDigits "35".data = some 35 := by decide
    rw [h1]
    norm_num +decide [parseDecimal, h2, h3]
  have hq140 : parseDecimal (trimTrailingDots
      ((splitWS "wlan0: 0000 140. 40. 0".data).getD 2 [])) = some 140 := by
    have h1 : trimTrailingDots ((splitWS "wlan0: 0000 140. 40. 0".data).getD 2 [])
        = "140".data := by decide
    have h2 : splitOnChar '.' "140".data = ["140".data] := by decide
    have h3 : parseDigits "140".data = some 140 := by decide
    rw [h1]
    norm_num +decide [parseDecimal, h2, h3]
  refine ⟨?_, ?_, ?_⟩
  · rw [(signal_quality_formula (Wifi.new [] 1 0 (some "wlan0".data)) _ _ [] _ [] 70
      rfl (by decide) (fun l hl => absurd hl (List.not_mem_nil l))
      (by decide) (by decide) hq70).1]
    congr 1
    have : (70 : ℚ) / 70 * 100 = 100 := by norm_num
    rw [this, rustRound, if_pos (by norm_num), round_eq]
    norm_num [clampPct]
  · rw [(signal_quality_formula (Wifi.new [] 1 0 (some "wlan0".data)) _ _ [] _ [] 35
      rfl (by decide) (fun l hl => absurd hl (List.not_mem_nil l))
      (by decide) (by decide) hq35).1]
    congr 1
    have : (35 : ℚ) / 70 * 100 = 50 := by norm_num
    rw [this, rustRound, if_pos (by norm_num), round_eq]
    norm_num [clampPct]
  · rw [(signal_quality_formula (Wifi.new [] 1 0 (some "wlan0".data)) _ _ [] _ [] 140
      rfl (by decide) (fun l hl => absurd hl (List.not_mem_nil l))
      (by decide) (by decide) hq140).1]
    congr 1
    have : (140 : ℚ) / 70 * 100 = 200 := by norm_num
    rw [this, rustRound, if_pos (by norm_num), round_eq]
    norm_num [clampPct]
